import Mathlib

/-!
Verification of the Orastria astrology-book service core
(`src/orastria_ai_book_complete.py`, `src/app.py`).

Python strings are modelled as `List Char`; Python floats carrying ecliptic
longitudes are modelled as exact rationals `ℚ`; fallible code returns
`Option`/`Except`.  Functions are translated directly from the source;
definitions named after the claims' wording are marked as such.
-/

namespace Orastria

/-- Python strings, modelled as character lists (so that all operations are
structurally recursive and kernel-evaluable). -/
abbrev Str := List Char

/-- Python `s.lower()` (the inputs handled by the service are ASCII). -/
def strLower (s : Str) : Str := s.map Char.toLower

/-- Python `s.upper()`. -/
def strUpper (s : Str) : Str := s.map Char.toUpper

/-- Python substring test `pat in s`. -/
def strContains (s pat : Str) : Bool :=
  match s with
  | [] => pat.isEmpty
  | _ :: rest => pat.isPrefixOf s || strContains rest pat

/-- Python `s.strip()` (whitespace from both ends). -/
def strTrim (s : Str) : Str :=
  ((s.dropWhile Char.isWhitespace).reverse.dropWhile Char.isWhitespace).reverse

/-- Python `s.split(sep)` for a one-character separator: the result is always
a nonempty list of separator-free chunks. -/
def strSplit (sep : Char) : Str → List Str
  | [] => [[]]
  | c :: rest =>
    match strSplit sep rest with
    | [] => [[c]]
    | g :: gs => if c = sep then [] :: g :: gs else (c :: g) :: gs

/-- Python `int(s)` on the separator-free digit strings this service feeds it:
succeeds exactly on nonempty all-digit strings.  (Python's `int` additionally
strips whitespace and accepts an optional sign; the date and time fields split
by the source never carry those.) -/
def parseNat (s : Str) : Option Nat :=
  if s ≠ [] ∧ s.all Char.isDigit then
    some (s.foldl (fun a c => a * 10 + (c.toNat - 48)) 0)
  else none

/-- Python truthiness-based `a or default` for an optional string
(`None` and `""` are falsy). -/
def pyOr (a : Option Str) (d : Str) : Str :=
  match a with
  | some s => if s = [] then d else s
  | none => d

/-- Decimal digit sum, written with explicit fuel so that it is structurally
recursive (the fuel `n` itself always suffices). -/
def digitSumFuel : Nat → Nat → Nat
  | 0, n => n
  | fuel + 1, n => if n < 10 then n else digitSumFuel fuel (n / 10) + n % 10

/-- Sum of the decimal digits of `n`: Python `sum(int(d) for d in str(n))`. -/
def digitSum (n : Nat) : Nat := digitSumFuel n n

/-- One run of the source's master-number-preserving reduction loop
`while total > 9 and total not in [11, 22, 33]: total = digit_sum(total)`,
with explicit fuel. -/
def reduceFuel : Nat → Nat → Nat
  | 0, t => t
  | fuel + 1, t =>
    if t > 9 && t ≠ 11 && t ≠ 22 && t ≠ 33 then reduceFuel fuel (digitSum t) else t

/-- The numerology reduction used by both `calculate_life_path` and
`calculate_expression_number`. -/
def reduceMaster (t : Nat) : Nat := reduceFuel t t

/-- The value set {1..9, 11, 22, 33} named by the spec for numerology results. -/
def isLifePathValue (n : Nat) : Prop := (1 ≤ n ∧ n ≤ 9) ∨ n = 11 ∨ n = 22 ∨ n = 33

instance (n : Nat) : Decidable (isLifePathValue n) := by
  unfold isLifePathValue
  infer_instance

lemma digitSumFuel_le (fuel : Nat) : ∀ n, digitSumFuel fuel n ≤ n := by
  induction fuel with
  | zero => intro n; simp [digitSumFuel]
  | succ f ih =>
    intro n
    simp only [digitSumFuel]
    split
    · exact Nat.le_refl n
    · have h1 := ih (n / 10)
      omega

lemma digitSumFuel_pos (fuel : Nat) : ∀ n, 1 ≤ n → 1 ≤ digitSumFuel fuel n := by
  induction fuel with
  | zero => intro n h; simpa [digitSumFuel] using h
  | succ f ih =>
    intro n h
    simp only [digitSumFuel]
    split
    · exact h
    · rename_i hn
      have h1 : 1 ≤ n / 10 := by omega
      have h2 := ih (n / 10) h1
      omega

lemma digitSum_le (n : Nat) : digitSum n ≤ n := digitSumFuel_le n n

lemma digitSum_pos (n : Nat) (h : 1 ≤ n) : 1 ≤ digitSum n := digitSumFuel_pos n n h

lemma digitSum_lt (n : Nat) (h : 10 ≤ n) : digitSum n < n := by
  obtain ⟨f, rfl⟩ : ∃ f, n = f + 1 := ⟨n - 1, by omega⟩
  unfold digitSum digitSumFuel
  split
  · omega
  · have h1 := digitSumFuel_le f ((f + 1) / 10)
    omega

lemma reduceFuel_mem (fuel : Nat) :
    ∀ t, 1 ≤ t → t ≤ fuel → isLifePathValue (reduceFuel fuel t) := by
  induction fuel with
  | zero => intro t h1 h2; omega
  | succ f ih =>
    intro t h1 h2
    simp only [reduceFuel]
    split
    · rename_i hcond
      simp only [Bool.and_eq_true, decide_eq_true_eq, ne_eq] at hcond
      have h10 : 10 ≤ t := by omega
      have hlt := digitSum_lt t h10
      have hpos := digitSum_pos t h1
      exact ih (digitSum t) hpos (by omega)
    · rename_i hcond
      simp only [Bool.and_eq_true, decide_eq_true_eq, ne_eq] at hcond
      unfold isLifePathValue
      omega

lemma reduceMaster_mem (t : Nat) (h : 1 ≤ t) : isLifePathValue (reduceMaster t) :=
  reduceFuel_mem t t h (Nat.le_refl t)

/-- The fixed ordered sign list `ZODIAC_SIGNS` of the source. -/
def ZODIAC_SIGNS : List Str :=
  ["Aries".toList, "Taurus".toList, "Gemini".toList, "Cancer".toList,
   "Leo".toList, "Virgo".toList, "Libra".toList, "Scorpio".toList,
   "Sagittarius".toList, "Capricorn".toList, "Aquarius".toList, "Pisces".toList]

/-- The hardcoded Lahiri ayanamsa offset `AYANAMSA = 24.0` of the source. -/
def AYANAMSA : ℚ := 24

/-- Python's `%` on reals: `pymod a b = a - b * ⌊a / b⌋` (for `b > 0` the
result lies in `[0, b)` whatever the sign of `a`). -/
def pymod (a b : ℚ) : ℚ := a - b * ⌊a / b⌋

/-- Python `int()` applied to a real: truncation toward zero. -/
def pytrunc (q : ℚ) : ℤ := if 0 ≤ q then ⌊q⌋ else -⌊-q⌋

/-- Source `longitude_to_tropical_sign`: add the ayanamsa, wrap mod 360,
divide by 30 and truncate, and index the sign list. -/
def longitude_to_tropical_sign (longitude : ℚ) : Str :=
  let tropical_longitude := pymod (longitude + AYANAMSA) 360
  let sign_index := pytrunc (tropical_longitude / 30)
  ZODIAC_SIGNS.getD sign_index.toNat []

lemma pymod_nonneg (a b : ℚ) (hb : 0 < b) : 0 ≤ pymod a b := by
  have h := Int.fract_nonneg (a / b)
  have heq : pymod a b = b * Int.fract (a / b) := by
    unfold pymod Int.fract
    field_simp
  rw [heq]
  positivity

lemma pymod_lt (a b : ℚ) (hb : 0 < b) : pymod a b < b := by
  have h := Int.fract_lt_one (a / b)
  have heq : pymod a b = b * Int.fract (a / b) := by
    unfold pymod Int.fract
    field_simp
  rw [heq]
  calc b * Int.fract (a / b) < b * 1 := by
        exact mul_lt_mul_of_pos_left h hb
    _ = b := mul_one b

/-- The sign index the spec's formula `floor(((L + 24.0) mod 360) / 30)`
denotes, stated from the claim's words. -/
def claimSignIndex (l : ℚ) : ℤ := ⌊pymod (l + 24) 360 / 30⌋

lemma claimSignIndex_nonneg (l : ℚ) : 0 ≤ claimSignIndex l := by
  unfold claimSignIndex
  have h0 : (0:ℚ) ≤ pymod (l + 24) 360 := pymod_nonneg _ _ (by norm_num)
  positivity

lemma claimSignIndex_lt (l : ℚ) : claimSignIndex l < 12 := by
  unfold claimSignIndex
  have h1 : pymod (l + 24) 360 < 360 := pymod_lt _ _ (by norm_num)
  have h2 : pymod (l + 24) 360 / 30 < 12 := by linarith
  exact Int.floor_lt.mpr (by push_cast; linarith)

lemma longitude_to_tropical_sign_eq (l : ℚ) :
    longitude_to_tropical_sign l = ZODIAC_SIGNS.getD (claimSignIndex l).toNat [] := by
  unfold longitude_to_tropical_sign claimSignIndex pytrunc AYANAMSA
  have h0 : (0:ℚ) ≤ pymod (l + 24) 360 := pymod_nonneg _ _ (by norm_num)
  have h1 : (0:ℚ) ≤ pymod (l + 24) 360 / 30 := by positivity
  simp [h1]

/-- One record of the planetary-position response: `planet.get('name', '')`,
`planet.get('longitude', 0)` and `planet.get('rasi', {}).get('id', -1)` are
modelled by optional fields with the same defaults applied at use sites. -/
structure PlanetEntry where
  name : Str
  longitude : Option ℚ
  rasi_id : Option Int
deriving DecidableEq

/-- The planetary-position response body: `planet_data.get('planet_position', [])`. -/
structure PlanetData where
  planet_position : Option (List PlanetEntry)
deriving DecidableEq

/-- The kundli response's `ascendant` object; `longitude` models
`ascendant.get('longitude', 0)`. -/
structure Ascendant where
  longitude : Option ℚ
deriving DecidableEq

/-- The kundli response body; `ascendant = none` models a missing or empty
(falsy) `ascendant` entry. -/
structure KundliData where
  ascendant : Option Ascendant
deriving DecidableEq

/-- The PlacementSet: the ten-key chart dict built by `parse_chart_data` and
by the fallback tier of `generate_book`. -/
structure Chart where
  sun_sign : Str
  moon_sign : Str
  rising_sign : Str
  mercury : Str
  venus : Str
  mars : Str
  jupiter : Str
  saturn : Str
  midheaven : Str
  north_node : Str
deriving DecidableEq

/-- The all-Aries chart `parse_chart_data` starts from. -/
def defaultChart : Chart :=
  { sun_sign := "Aries".toList, moon_sign := "Aries".toList,
    rising_sign := "Aries".toList, mercury := "Aries".toList,
    venus := "Aries".toList, mars := "Aries".toList,
    jupiter := "Aries".toList, saturn := "Aries".toList,
    midheaven := "Aries".toList, north_node := "Aries".toList }

/-- The list of the ten values of a chart, in source key order. -/
def chartFields (c : Chart) : List Str :=
  [c.sun_sign, c.moon_sign, c.rising_sign, c.mercury, c.venus, c.mars,
   c.jupiter, c.saturn, c.midheaven, c.north_node]

/-- The per-point sign resolution of `parse_chart_data` (lines 396-408):
positive longitude wins, else a rasi id in 0..11 is shifted by +1 mod 12,
else the default sign. -/
def pointSign (p : PlanetEntry) : Str :=
  if 0 < p.longitude.getD 0 then longitude_to_tropical_sign (p.longitude.getD 0)
  else if 0 ≤ p.rasi_id.getD (-1) ∧ p.rasi_id.getD (-1) < 12 then
    ZODIAC_SIGNS.getD ((p.rasi_id.getD (-1) + 1) % 12).toNat []
  else "Aries".toList

/-- The dict update `chart[planet_name_map[planet_name]] = sign_name`:
names outside `planet_name_map` leave the chart unchanged. -/
def setPlanet (chart : Chart) (planet_name sign_name : Str) : Chart :=
  if planet_name = "Sun".toList then { chart with sun_sign := sign_name }
  else if planet_name = "Moon".toList then { chart with moon_sign := sign_name }
  else if planet_name = "Mercury".toList then { chart with mercury := sign_name }
  else if planet_name = "Venus".toList then { chart with venus := sign_name }
  else if planet_name = "Mars".toList then { chart with mars := sign_name }
  else if planet_name = "Jupiter".toList then { chart with jupiter := sign_name }
  else if planet_name = "Saturn".toList then { chart with saturn := sign_name }
  else if planet_name = "Rahu".toList then { chart with north_node := sign_name }
  else if planet_name = "Ascendant".toList then { chart with rising_sign := sign_name }
  else chart

/-- The fold of `parse_chart_data` over the planet-position records. -/
def foldPlanets (planets : List PlanetEntry) (chart : Chart) : Chart :=
  planets.foldl (fun ch p => setPlanet ch p.name (pointSign p)) chart

/-- The kundli step of `parse_chart_data` (lines 413-419): a positive
ascendant longitude overrides the rising sign, anything else leaves the
chart alone. -/
def kundliOverride (chart : Chart) (kundli_data : Option KundliData) : Chart :=
  match kundli_data with
  | none => chart
  | some k =>
    match k.ascendant with
    | none => chart
    | some asc =>
      if 0 < asc.longitude.getD 0 then
        { chart with rising_sign := longitude_to_tropical_sign (asc.longitude.getD 0) }
      else chart

/-- Source `parse_chart_data`: fold the planet positions over the default
chart, then apply the kundli rising-sign override. -/
def parse_chart_data (planet_data : PlanetData) (kundli_data : Option KundliData) : Chart :=
  kundliOverride (foldPlanets (planet_data.planet_position.getD []) defaultChart) kundli_data

lemma longitude_to_tropical_sign_mem (l : ℚ) :
    longitude_to_tropical_sign l ∈ ZODIAC_SIGNS := by
  rw [longitude_to_tropical_sign_eq]
  have h1 := claimSignIndex_nonneg l
  have h2 := claimSignIndex_lt l
  have hlen : (claimSignIndex l).toNat < ZODIAC_SIGNS.length := by
    have h3 : (claimSignIndex l).toNat < 12 := by omega
    simpa [ZODIAC_SIGNS] using h3
  rw [List.getD_eq_getElem ZODIAC_SIGNS [] hlen]
  exact List.getElem_mem hlen

lemma pointSign_mem (p : PlanetEntry) : pointSign p ∈ ZODIAC_SIGNS := by
  unfold pointSign
  split
  · exact longitude_to_tropical_sign_mem _
  · split
    · rename_i h
      have h1 : (0:ℤ) ≤ (p.rasi_id.getD (-1) + 1) % 12 := Int.emod_nonneg _ (by norm_num)
      have h2 : (p.rasi_id.getD (-1) + 1) % 12 < 12 := Int.emod_lt_of_pos _ (by norm_num)
      have hlen : ((p.rasi_id.getD (-1) + 1) % 12).toNat < ZODIAC_SIGNS.length := by
        have h3 : ((p.rasi_id.getD (-1) + 1) % 12).toNat < 12 := by omega
        simpa [ZODIAC_SIGNS] using h3
      rw [List.getD_eq_getElem ZODIAC_SIGNS [] hlen]
      exact List.getElem_mem hlen
    · simp [ZODIAC_SIGNS]

lemma chartFields_mem_iff (c : Chart) (P : Str → Prop) :
    (∀ s ∈ chartFields c, P s) ↔
      P c.sun_sign ∧ P c.moon_sign ∧ P c.rising_sign ∧ P c.mercury ∧ P c.venus ∧
      P c.mars ∧ P c.jupiter ∧ P c.saturn ∧ P c.midheaven ∧ P c.north_node := by
  simp [chartFields]

lemma setPlanet_mem (c : Chart) (n v : Str)
    (hc : ∀ s ∈ chartFields c, s ∈ ZODIAC_SIGNS) (hv : v ∈ ZODIAC_SIGNS) :
    ∀ s ∈ chartFields (setPlanet c n v), s ∈ ZODIAC_SIGNS := by
  rw [chartFields_mem_iff] at hc ⊢
  unfold setPlanet
  split_ifs <;> exact ⟨by simp_all, by simp_all, by simp_all, by simp_all, by simp_all,
    by simp_all, by simp_all, by simp_all, by simp_all, by simp_all⟩

lemma foldPlanets_mem (l : List PlanetEntry) (c : Chart)
    (hc : ∀ s ∈ chartFields c, s ∈ ZODIAC_SIGNS) :
    ∀ s ∈ chartFields (foldPlanets l c), s ∈ ZODIAC_SIGNS := by
  induction l generalizing c with
  | nil => simpa [foldPlanets] using hc
  | cons p rest ih =>
    simp only [foldPlanets, List.foldl_cons]
    exact ih (setPlanet c p.name (pointSign p)) (setPlanet_mem c p.name (pointSign p) hc (pointSign_mem p))

lemma kundliOverride_mem (c : Chart) (kd : Option KundliData)
    (hc : ∀ s ∈ chartFields c, s ∈ ZODIAC_SIGNS) :
    ∀ s ∈ chartFields (kundliOverride c kd), s ∈ ZODIAC_SIGNS := by
  rcases kd with _ | ⟨_ | asc⟩
  · simpa [kundliOverride] using hc
  · simpa [kundliOverride] using hc
  · rw [chartFields_mem_iff] at hc ⊢
    simp only [kundliOverride]
    split_ifs
    · exact ⟨by simp_all, by simp_all, by simpa using longitude_to_tropical_sign_mem _,
        by simp_all, by simp_all, by simp_all, by simp_all, by simp_all, by simp_all,
        by simp_all⟩
    · exact hc

lemma defaultChart_mem : ∀ s ∈ chartFields defaultChart, s ∈ ZODIAC_SIGNS := by
  intro s hs
  simp only [chartFields, defaultChart, List.mem_cons, List.not_mem_nil, or_false] at hs
  have ha : "Aries".toList ∈ ZODIAC_SIGNS := by simp [ZODIAC_SIGNS]
  rcases hs with rfl | rfl | rfl | rfl | rfl | rfl | rfl | rfl | rfl | rfl <;> exact ha

lemma parse_chart_data_mem (pd : PlanetData) (kd : Option KundliData) :
    ∀ s ∈ chartFields (parse_chart_data pd kd), s ∈ ZODIAC_SIGNS := by
  unfold parse_chart_data
  exact kundliOverride_mem _ kd (foldPlanets_mem _ _ defaultChart_mem)

/-- Source `guess_timezone_from_coords`: keyword checks on the lowercased
place string in source order, then longitude banding.  The latitude argument
is accepted but never consulted, exactly as in the source. -/
def guess_timezone_from_coords (lat lon : ℚ) (place_name : Str) : Str :=
  let place_lower := strLower place_name
  if strContains place_lower "paris".toList || strContains place_lower "france".toList then
    "Europe/Paris".toList
  else if strContains place_lower "london".toList || strContains place_lower "uk".toList ||
      strContains place_lower "england".toList then "Europe/London".toList
  else if strContains place_lower "new york".toList then "America/New_York".toList
  else if strContains place_lower "los angeles".toList ||
      strContains place_lower "california".toList then "America/Los_Angeles".toList
  else if strContains place_lower "chicago".toList then "America/Chicago".toList
  else if strContains place_lower "dubai".toList || strContains place_lower "uae".toList then
    "Asia/Dubai".toList
  else if strContains place_lower "tokyo".toList || strContains place_lower "japan".toList then
    "Asia/Tokyo".toList
  else if strContains place_lower "sydney".toList ||
      strContains place_lower "australia".toList then "Australia/Sydney".toList
  else if strContains place_lower "berlin".toList ||
      strContains place_lower "germany".toList then "Europe/Berlin".toList
  else if strContains place_lower "rome".toList || strContains place_lower "italy".toList then
    "Europe/Rome".toList
  else if strContains place_lower "madrid".toList || strContains place_lower "spain".toList then
    "Europe/Madrid".toList
  else if strContains place_lower "moscow".toList ||
      strContains place_lower "russia".toList then "Europe/Moscow".toList
  else if strContains place_lower "beijing".toList ||
      strContains place_lower "china".toList then "Asia/Shanghai".toList
  else if strContains place_lower "india".toList || strContains place_lower "mumbai".toList ||
      strContains place_lower "delhi".toList then "Asia/Kolkata".toList
  else if strContains place_lower "beirut".toList ||
      strContains place_lower "lebanon".toList then "Asia/Beirut".toList
  else if lon < -100 then "America/Los_Angeles".toList
  else if lon < -60 then "America/New_York".toList
  else if lon < 0 then "Europe/London".toList
  else if lon < 30 then "Europe/Paris".toList
  else if lon < 60 then "Asia/Dubai".toList
  else if lon < 100 then "Asia/Kolkata".toList
  else if lon < 130 then "Asia/Shanghai".toList
  else "Asia/Tokyo".toList

/-- The keyword decision table of the claim: keyword groups in the source's
priority order, each mapped to its hardcoded timezone. -/
def keywordTable : List (List Str × Str) :=
  [(["paris".toList, "france".toList], "Europe/Paris".toList),
   (["london".toList, "uk".toList, "england".toList], "Europe/London".toList),
   (["new york".toList], "America/New_York".toList),
   (["los angeles".toList, "california".toList], "America/Los_Angeles".toList),
   (["chicago".toList], "America/Chicago".toList),
   (["dubai".toList, "uae".toList], "Asia/Dubai".toList),
   (["tokyo".toList, "japan".toList], "Asia/Tokyo".toList),
   (["sydney".toList, "australia".toList], "Australia/Sydney".toList),
   (["berlin".toList, "germany".toList], "Europe/Berlin".toList),
   (["rome".toList, "italy".toList], "Europe/Rome".toList),
   (["madrid".toList, "spain".toList], "Europe/Madrid".toList),
   (["moscow".toList, "russia".toList], "Europe/Moscow".toList),
   (["beijing".toList, "china".toList], "Asia/Shanghai".toList),
   (["india".toList, "mumbai".toList, "delhi".toList], "Asia/Kolkata".toList),
   (["beirut".toList, "lebanon".toList], "Asia/Beirut".toList)]

/-- Walks a keyword table in order and returns the timezone of the first
group any of whose keywords occurs in the given lowercased place string. -/
def firstKeywordAux : List (List Str × Str) → Str → Option Str
  | [], _ => none
  | (kws, tz) :: rest, pl =>
    if kws.any (fun kw => strContains pl kw) then some tz else firstKeywordAux rest pl

/-- First keyword-table group any of whose keywords occurs in the lowercased
place string, per the claim's fixed priority order. -/
def firstKeyword (place_lower : Str) : Option Str :=
  firstKeywordAux keywordTable place_lower

/-- The eight-range longitude banding of the claim. -/
def longitudeBand (lon : ℚ) : Str :=
  if lon < -100 then "America/Los_Angeles".toList
  else if lon < -60 then "America/New_York".toList
  else if lon < 0 then "Europe/London".toList
  else if lon < 30 then "Europe/Paris".toList
  else if lon < 60 then "Asia/Dubai".toList
  else if lon < 100 then "Asia/Kolkata".toList
  else if lon < 130 then "Asia/Shanghai".toList
  else "Asia/Tokyo".toList

set_option maxHeartbeats 2000000 in
lemma guess_timezone_eq (lat lon : ℚ) (place_name : Str) :
    guess_timezone_from_coords lat lon place_name =
      match firstKeyword (strLower place_name) with
      | some tz => tz
      | none => longitudeBand lon := by
  unfold guess_timezone_from_coords firstKeyword keywordTable longitudeBand
  simp only [firstKeywordAux, List.any_cons, List.any_nil, Bool.or_false, Bool.or_assoc]
  set pl := strLower place_name with hpl
  by_cases h1 : (strContains pl "paris".toList || strContains pl "france".toList) = true
  · rw [if_pos h1, if_pos h1]
  rw [if_neg h1, if_neg h1]
  by_cases h2 : (strContains pl "london".toList ||
      (strContains pl "uk".toList || strContains pl "england".toList)) = true
  · rw [if_pos h2, if_pos h2]
  rw [if_neg h2, if_neg h2]
  by_cases h3 : strContains pl "new york".toList = true
  · rw [if_pos h3, if_pos h3]
  rw [if_neg h3, if_neg h3]
  by_cases h4 : (strContains pl "los angeles".toList ||
      strContains pl "california".toList) = true
  · rw [if_pos h4, if_pos h4]
  rw [if_neg h4, if_neg h4]
  by_cases h5 : strContains pl "chicago".toList = true
  · rw [if_pos h5, if_pos h5]
  rw [if_neg h5, if_neg h5]
  by_cases h6 : (strContains pl "dubai".toList || strContains pl "uae".toList) = true
  · rw [if_pos h6, if_pos h6]
  rw [if_neg h6, if_neg h6]
  by_cases h7 : (strContains pl "tokyo".toList || strContains pl "japan".toList) = true
  · rw [if_pos h7, if_pos h7]
  rw [if_neg h7, if_neg h7]
  by_cases h8 : (strContains pl "sydney".toList || strContains pl "australia".toList) = true
  · rw [if_pos h8, if_pos h8]
  rw [if_neg h8, if_neg h8]
  by_cases h9 : (strContains pl "berlin".toList || strContains pl "germany".toList) = true
  · rw [if_pos h9, if_pos h9]
  rw [if_neg h9, if_neg h9]
  by_cases h10 : (strContains pl "rome".toList || strContains pl "italy".toList) = true
  · rw [if_pos h10, if_pos h10]
  rw [if_neg h10, if_neg h10]
  by_cases h11 : (strContains pl "madrid".toList || strContains pl "spain".toList) = true
  · rw [if_pos h11, if_pos h11]
  rw [if_neg h11, if_neg h11]
  by_cases h12 : (strContains pl "moscow".toList || strContains pl "russia".toList) = true
  · rw [if_pos h12, if_pos h12]
  rw [if_neg h12, if_neg h12]
  by_cases h13 : (strContains pl "beijing".toList || strContains pl "china".toList) = true
  · rw [if_pos h13, if_pos h13]
  rw [if_neg h13, if_neg h13]
  by_cases h14 : (strContains pl "india".toList ||
      (strContains pl "mumbai".toList || strContains pl "delhi".toList)) = true
  · rw [if_pos h14, if_pos h14]
  rw [if_neg h14, if_neg h14]
  by_cases h15 : (strContains pl "beirut".toList || strContains pl "lebanon".toList) = true
  · rw [if_pos h15, if_pos h15]
  rw [if_neg h15, if_neg h15]

/-- Month names recognised by `strptime`'s `%B`, lowercased (Python matches
the month name case-insensitively). -/
def MONTHS : List Str :=
  ["january".toList, "february".toList, "march".toList, "april".toList,
   "may".toList, "june".toList, "july".toList, "august".toList,
   "september".toList, "october".toList, "november".toList, "december".toList]

/-- Gregorian leap-year rule, as validated by Python's `datetime`. -/
def isLeapYear (y : Nat) : Prop := y % 4 = 0 ∧ (y % 100 ≠ 0 ∨ y % 400 = 0)

instance (y : Nat) : Decidable (isLeapYear y) := by
  unfold isLeapYear
  infer_instance

/-- Days in a month, as validated by Python's `datetime`. -/
def daysInMonth (m y : Nat) : Nat :=
  if m = 2 then (if isLeapYear y then 29 else 28)
  else if m = 4 ∨ m = 6 ∨ m = 9 ∨ m = 11 then 30
  else 31

/-- Walks the month list and returns the 1-based month number of the first
name that prefixes the (lowercased) input, together with the rest. -/
def findMonth : List Str → Nat → Str → Option (Nat × Str)
  | [], _, _ => none
  | m :: rest, i, t =>
    if m.isPrefixOf t then some (i, t.drop m.length) else findMonth rest (i + 1) t

/-- Python `datetime.strptime(s, "%B %d, %Y")` as used by
`calculate_life_path`: month name, space, 1-2 digit day, ", ", 1-4 digit
year, nothing trailing; day and year validated as a calendar date. -/
def parseLongDate (s : Str) : Option (Nat × Nat × Nat) :=
  match findMonth MONTHS 1 (strLower s) with
  | none => none
  | some (month, r1) =>
    match r1 with
    | ' ' :: r2 =>
      match parseNat (r2.takeWhile Char.isDigit) with
      | none => none
      | some day =>
        if (r2.takeWhile Char.isDigit).length ≤ 2 ∧ 1 ≤ day then
          match r2.drop (r2.takeWhile Char.isDigit).length with
          | ',' :: ' ' :: r3 =>
            match parseNat (r3.takeWhile Char.isDigit) with
            | none => none
            | some year =>
              if (r3.takeWhile Char.isDigit).length ≤ 4 ∧ 1 ≤ year ∧
                  r3.drop (r3.takeWhile Char.isDigit).length = [] ∧
                  day ≤ daysInMonth month year then
                some (year, month, day)
              else none
          | _ => none
        else none
    | _ => none

/-- The date parse performed by `calculate_life_path` (lines 454-459):
hyphenated dates are split on `-` and the first three parts fed to `int()`;
anything else goes through `strptime("%B %d, %Y")`.  `none` models the
exceptions swallowed by the bare `except`. -/
def parse_birth_date (s : Str) : Option (Nat × Nat × Nat) :=
  if s.contains '-' then
    match strSplit '-' s with
    | p0 :: p1 :: p2 :: _ =>
      match parseNat p0, parseNat p1, parseNat p2 with
      | some y, some m, some d => some (y, m, d)
      | _, _, _ => none
    | _ => none
  else parseLongDate s

/-- Source `calculate_life_path`: digit-sum year, month and day, reduce with
the master-number loop; any parse failure yields the fixed fallback 7. -/
def calculate_life_path (birth_date : Str) : Nat :=
  match parse_birth_date birth_date with
  | some (y, m, d) => reduceMaster (digitSum y + digitSum m + digitSum d)
  | none => 7

/-- The source's `letter_values` dict of `calculate_expression_number`. -/
def letter_values : List (Char × Nat) :=
  [('a', 1), ('b', 2), ('c', 3), ('d', 4), ('e', 5), ('f', 6), ('g', 7), ('h', 8),
   ('i', 9), ('j', 1), ('k', 2), ('l', 3), ('m', 4), ('n', 5), ('o', 6), ('p', 7),
   ('q', 8), ('r', 9), ('s', 1), ('t', 2), ('u', 3), ('v', 4), ('w', 5), ('x', 6),
   ('y', 7), ('z', 8)]

/-- `letter_values.get(c, 0)`. -/
def letterValue (c : Char) : Nat := (letter_values.lookup c).getD 0

/-- Source `calculate_expression_number`: sum the table values of the
lowercased alphabetic characters, then apply the same reduction loop. -/
def calculate_expression_number (name : Str) : Nat :=
  reduceMaster (((name.filter Char.isAlpha).map (fun c => letterValue c.toLower)).sum)

/-- The claim's Pythagorean table, stated from its words: A,J,S=1; B,K,T=2;
C,L,U=3; D,M,V=4; E,N,W=5; F,O,X=6; G,P,Y=7; H,Q,Z=8; I,R=9. -/
def pythagoreanTable : List (Str × Nat) :=
  [("AJS".toList, 1), ("BKT".toList, 2), ("CLU".toList, 3), ("DMV".toList, 4),
   ("ENW".toList, 5), ("FOX".toList, 6), ("GPY".toList, 7), ("HQZ".toList, 8),
   ("IR".toList, 9)]

/-- The claim's letter value: the table row containing the (uppercased)
letter, 0 for non-letters. -/
def pythagoreanValue (c : Char) : Nat :=
  match pythagoreanTable.find? (fun g => g.1.contains c.toUpper) with
  | some g => g.2
  | none => 0

lemma letterValue_eq_pythagorean (c : Char) (h : c.isAlpha = true) :
    letterValue c.toLower = pythagoreanValue c := by
  have hb : (65 ≤ c.toNat ∧ c.toNat ≤ 90) ∨ (97 ≤ c.toNat ∧ c.toNat ≤ 122) := by
    simp [Char.isAlpha, Char.isUpper, Char.isLower] at h
    exact h
  have hc : c = Char.ofNat c.toNat := (Char.ofNat_toNat c).symm
  rw [hc]
  generalize hgen : c.toNat = n at hb
  rcases hb with ⟨hb1, hb2⟩ | ⟨hb1, hb2⟩ <;> interval_cases n <;> decide

/-- Decimal rendering of a natural number (explicit fuel, `n` suffices). -/
def natToStrFuel : Nat → Nat → Str
  | 0, n => [Char.ofNat (48 + n)]
  | fuel + 1, n =>
    if n < 10 then [Char.ofNat (48 + n)]
    else natToStrFuel fuel (n / 10) ++ [Char.ofNat (48 + n % 10)]

/-- Python `str(n)` for a natural number. -/
def natToStr (n : Nat) : Str := natToStrFuel n n

/-- Python `f"{n:02d}"`: decimal, left-padded with `0` to width 2. -/
def pad2 (n : Nat) : Str :=
  if (natToStr n).length < 2 then '0' :: natToStr n else natToStr n

/-- The 12-hour to 24-hour conversion inlined in `generate_book`
(lines 1753-1766).  `none` models the uncaught `ValueError` that `int()`
raises on a non-numeric hour; that statement sits outside any `try` block. -/
def convert_birth_time (birth_time : Str) (period : Str) : Option Str :=
  if strUpper period = "PM".toList ∧ birth_time.contains ':' then
    match parseNat ((strSplit ':' birth_time).getD 0 []) with
    | none => none
    | some hour =>
      some (pad2 (if hour ≠ 12 then hour + 12 else hour) ++
        ':' :: (strSplit ':' birth_time).getD 1 [])
  else if strUpper period = "AM".toList ∧ birth_time.contains ':' then
    match parseNat ((strSplit ':' birth_time).getD 0 []) with
    | none => none
    | some hour =>
      some (pad2 (if hour = 12 then 0 else hour) ++
        ':' :: (strSplit ':' birth_time).getD 1 [])
  else some birth_time

/-- The `user_data` fields consulted by `generate_book`'s chart-selection
path; every field models the corresponding dict entry (`none` = absent). -/
structure UserData where
  birth_date : Option Str
  birth_time : Option Str
  birth_time_period : Option Str
  birth_place : Option Str
  sun_sign : Option Str
  moon_sign : Option Str
  rising_sign : Option Str
  mercury : Option Str
  venus : Option Str
  mars : Option Str
  jupiter : Option Str
  saturn : Option Str
  midheaven : Option Str
  north_node : Option Str
deriving DecidableEq

/-- The fallback tier of `generate_book` (lines 1774-1787): each of the ten
points is the caller-supplied value if truthy, "Aries" otherwise. -/
def fallback_chart (u : UserData) : Chart :=
  { sun_sign := pyOr u.sun_sign "Aries".toList,
    moon_sign := pyOr u.moon_sign "Aries".toList,
    rising_sign := pyOr u.rising_sign "Aries".toList,
    mercury := pyOr u.mercury "Aries".toList,
    venus := pyOr u.venus "Aries".toList,
    mars := pyOr u.mars "Aries".toList,
    jupiter := pyOr u.jupiter "Aries".toList,
    saturn := pyOr u.saturn "Aries".toList,
    midheaven := pyOr u.midheaven "Aries".toList,
    north_node := pyOr u.north_node "Aries".toList }

/-- The network requests the resolver can attempt, in source order. -/
inductive NetCall where
  | geocode
  | token
  | planetPos
  | kundli
deriving DecidableEq

/-- Outcomes of the external services for one resolution attempt.
`Except.error` models the call (or its response decoding) raising;
`kundli = Except.ok none` models a non-ok kundli response, whose failure the
source absorbs without raising. -/
structure Env where
  geocode : Except Str (ℚ × ℚ × Str)
  token : Except Str Str
  planet : Except Str PlanetData
  kundli : Except Str (Option KundliData)

/-- Source `get_chart_from_prokerala` plus the `get_birth_chart` it calls:
without credentials it returns `none` before any network call; with them it
geocodes, fetches a token, fetches planet positions and the kundli, and any
exception inside the `try` block is caught and converted to `none`.  The
second component records the network calls attempted. -/
def get_chart_from_prokerala (creds : Bool) (birth_date birth_time birth_place : Str)
    (env : Env) : Option Chart × List NetCall :=
  if ¬ creds then (none, [])
  else
    match env.geocode with
    | .error _ => (none, [.geocode])
    | .ok _ =>
      match env.token with
      | .error _ => (none, [.geocode, .token])
      | .ok _ =>
        match env.planet with
        | .error _ => (none, [.geocode, .token, .planetPos])
        | .ok pdata =>
          match env.kundli with
          | .error _ => (none, [.geocode, .token, .planetPos, .kundli])
          | .ok kd => (some (parse_chart_data pdata kd), [.geocode, .token, .planetPos, .kundli])

/-- The chart-selection path of `generate_book` (lines 1744-1787): with
credentials, normalize the birth time (a failing `int()` propagates as an
error), try the ephemeris, and fall back to the caller-supplied-or-default
chart when the fetch produced nothing; without credentials, only the
fallback tier runs. -/
def resolve_chart (creds : Bool) (u : UserData) (env : Env) :
    Except Str Chart × List NetCall :=
  if creds then
    match convert_birth_time (u.birth_time.getD "12:00".toList)
        (u.birth_time_period.getD []) with
    | none => (.error "ValueError".toList, [])
    | some bt =>
      match get_chart_from_prokerala creds (u.birth_date.getD []) bt
          (u.birth_place.getD []) env with
      | (some chart, calls) => (.ok chart, calls)
      | (none, calls) => (.ok (fallback_chart u), calls)
  else (.ok (fallback_chart u), [])

/-- First truthy string of a Python `a or b or ... or default` chain over
dict lookups. -/
def pyFirst (xs : List (Option Str)) (d : Str) : Str :=
  match xs with
  | [] => d
  | x :: rest =>
    match x with
    | some s => if s = [] then pyFirst rest d else s
    | none => pyFirst rest d

/-- The JSON response body shape of the two endpoints; `none` models an
absent key and `download_url = some none` a key bound to JSON `null`. -/
structure RespBody where
  success : Option Bool
  error : Option Str
  download_url : Option (Option Str)
  filename : Option Str
  message : Option Str
deriving DecidableEq

/-- A body with no keys set, to be updated per response. -/
def emptyBody : RespBody :=
  { success := none, error := none, download_url := none, filename := none,
    message := none }

/-- Filename construction shared by both endpoints: keep alphanumerics and
spaces of the name, replace spaces with underscores. -/
def mkFilename (name book_id : Str) : Str :=
  "orastria_".toList ++
    (name.filter (fun c => c.isAlphanum || c = ' ')).map
      (fun c => if c = ' ' then '_' else c) ++
    '_' :: (book_id ++ ".pdf".toList)

/-- The request fields `/generate` consults: `user_data.get('name')`,
`user_data.get('first_name')`, `user_data.get('last_name')` and
`chart_data.get('sun_sign')`. -/
structure GenReq where
  user_name : Option Str
  first_name : Option Str
  last_name : Option Str
  chart_sun_sign : Option Str
deriving DecidableEq

/-- Source `/generate` endpoint (`generate_book_endpoint` in `app.py`):
validate, render (`genOutcome` models `generate_ai_book` raising), upload
(`uploadOutcome` models `upload_to_b2`, which returns `None` on failure and
never raises), and answer.  `book_id` stands for the random uuid prefix. -/
def generate_book_endpoint (req : Option GenReq) (genOutcome : Except Str Unit)
    (uploadOutcome : Option Str) (book_id : Str) : Nat × RespBody :=
  match req with
  | none => (400, { emptyBody with error := some "No JSON data provided".toList })
  | some data =>
    let name := pyOr data.user_name
      (strTrim ((data.first_name.getD []) ++ ' ' :: (data.last_name.getD [])))
    if name = [] then
      (400, { emptyBody with error := some "Missing user name".toList })
    else if (pyOr data.chart_sun_sign []) = [] then
      (400, { emptyBody with error := some "Missing sun_sign in chart_data".toList })
    else
      match genOutcome with
      | .error e => (500, { emptyBody with success := some false, error := some e })
      | .ok _ =>
        match uploadOutcome with
        | some url =>
          (200,
            { emptyBody with
                success := some true
                download_url := some (some url)
                filename := some (mkFilename name book_id)
                message := some ("Book generated for ".toList ++ name) })
        | none =>
          (500,
            { emptyBody with
                success := some false
                error := some "Failed to upload to storage".toList })

/-- The request fields `/generate-simple` consults for validation and the
filename (aliases included); the remaining questionnaire fields do not
influence the response shape. -/
structure SimpleReq where
  name : Option Str
  first_name : Option Str
  firstName : Option Str
  last_name : Option Str
  birth_date : Option Str
  birthDate : Option Str
  dob : Option Str
  birth_place : Option Str
  birthPlace : Option Str
  location : Option Str
deriving DecidableEq

/-- Source `/generate-simple` endpoint (`generate_simple` in `app.py`):
normalize field aliases, force a nonempty name (falling back to "Friend"),
validate birth date and place, run `generate_book`, upload, and answer --
the upload result is returned as-is, unchecked. -/
def generate_simple (req : Option SimpleReq) (genOutcome : Except Str Unit)
    (uploadOutcome : Option Str) (book_id : Str) : Nat × RespBody :=
  match req with
  | none => (400, { emptyBody with error := some "No JSON data provided".toList })
  | some data =>
    let first_name := pyFirst [data.first_name, data.firstName, data.name] []
    let name0 := pyOr data.name
      (strTrim ((data.first_name.getD []) ++ ' ' :: (data.last_name.getD [])))
    let birth_date := pyFirst [data.birth_date, data.birthDate, data.dob] []
    let birth_place := pyFirst [data.birth_place, data.birthPlace, data.location] []
    let name := if name0 = [] ∨ strTrim name0 = [] then
        (if first_name = [] then "Friend".toList else first_name)
      else name0
    if first_name = [] ∧ name = [] then
      (400, { emptyBody with error := some "Missing name or first_name".toList })
    else if birth_date = [] then
      (400, { emptyBody with error := some "Missing birth_date".toList })
    else if birth_place = [] then
      (400, { emptyBody with error := some "Missing birth_place".toList })
    else
      match genOutcome with
      | .error e => (500, { emptyBody with success := some false, error := some e })
      | .ok _ =>
        (200,
          { emptyBody with
              success := some true
              download_url := some uploadOutcome
              filename := some (mkFilename (if name = [] then first_name else name) book_id) })

lemma pymod360_eq_self (a : ℚ) (h0 : 0 ≤ a) (h1 : a < 360) : pymod a 360 = a := by
  unfold pymod
  have hf : ⌊a / 360⌋ = 0 := by
    rw [Int.floor_eq_iff]
    constructor
    · positivity
    · rw [div_lt_iff₀ (by norm_num)]
      push_cast
      linarith
  rw [hf]
  ring

lemma pymod360_eq_sub (a : ℚ) (h0 : 360 ≤ a) (h1 : a < 720) : pymod a 360 = a - 360 := by
  unfold pymod
  have hf : ⌊a / 360⌋ = 1 := by
    rw [Int.floor_eq_iff]
    constructor
    · push_cast
      rw [le_div_iff₀ (by norm_num)]
      linarith
    · rw [div_lt_iff₀ (by norm_num)]
      push_cast
      linarith
  rw [hf]
  push_cast
  ring

lemma floor_div30 (x : ℚ) (n : ℤ) (h1 : 30 * n ≤ x) (h2 : x < 30 * (n + 1)) :
    ⌊x / 30⌋ = n := by
  rw [Int.floor_eq_iff]
  constructor
  · rw [le_div_iff₀ (by norm_num)]
    linarith
  · rw [div_lt_iff₀ (by norm_num)]
    linarith

/-- C2: for every longitude L, `longitude_to_tropical_sign` returns the sign
at index `floor(((L + 24.0) mod 360) / 30)` of the fixed Aries..Pisces list,
that index lying in 0..11; in particular longitude 6.0 yields the second
sign (Taurus) and longitude 336.0 the first sign (Aries). -/
theorem longitude_to_sign_formula :
    (∀ l : ℚ, 0 ≤ claimSignIndex l ∧ claimSignIndex l < 12 ∧
      longitude_to_tropical_sign l = ZODIAC_SIGNS.getD (claimSignIndex l).toNat []) ∧
    longitude_to_tropical_sign 6 = "Taurus".toList ∧
    longitude_to_tropical_sign 336 = "Aries".toList := by
  refine ⟨fun l => ⟨claimSignIndex_nonneg l, claimSignIndex_lt l,
    longitude_to_tropical_sign_eq l⟩, ?_, ?_⟩
  · rw [longitude_to_tropical_sign_eq]
    have h : claimSignIndex 6 = 1 := by
      unfold claimSignIndex pymod
      norm_num
    rw [h]
    rfl
  · rw [longitude_to_tropical_sign_eq]
    have h : claimSignIndex 336 = 0 := by
      unfold claimSignIndex pymod
      norm_num
    rw [h]
    rfl

/-- C3: with no positive longitude, a rasi id r in 0..11 resolves to the
sign at index (r+1) mod 12 -- rasi 11 gives Aries, rasi 0 gives Taurus --
and a rasi id outside 0..11 resolves to the default "Aries". -/
theorem rasi_to_sign_spec :
    (∀ p : PlanetEntry, ¬ 0 < p.longitude.getD 0 → ∀ r : ℤ, p.rasi_id = some r →
      ((0 ≤ r ∧ r < 12 → pointSign p = ZODIAC_SIGNS.getD ((r + 1) % 12).toNat []) ∧
       (¬ (0 ≤ r ∧ r < 12) → pointSign p = "Aries".toList))) ∧
    pointSign ⟨[], none, some 11⟩ = "Aries".toList ∧
    pointSign ⟨[], none, some 0⟩ = "Taurus".toList := by
  refine ⟨?_, by decide, by decide⟩
  intro p hlong r hr
  unfold pointSign
  rw [if_neg hlong, hr]
  simp only [Option.getD_some]
  constructor
  · intro hin
    rw [if_pos (by simpa using hin)]
  · intro hout
    rw [if_neg (by simpa using hout)]

/-- C3 witness: a point with longitude -5 and rasi id 3 resolves through the
rasi path to the sign at index 4 (Leo). -/
theorem rasi_to_sign_spec_witness :
    pointSign ⟨[], some (-5), some 3⟩ = ZODIAC_SIGNS.getD (((3:ℤ) + 1) % 12).toNat [] :=
  (rasi_to_sign_spec.1 ⟨[], some (-5), some 3⟩ (by decide) 3 rfl).1 (by decide)

/-- C4 counterexample: longitude 30.0 lies in sidereal sign k = 1 (the range
[30, 60)), yet the longitude path yields Taurus while the rasi path for rasi
id 1 yields the sign at index (1+1) mod 12 = Gemini, so the two paths do not
agree throughout sidereal sign k as the claim states. -/
theorem sidereal_boundary_cex :
    longitude_to_tropical_sign 30 = "Taurus".toList ∧
    pointSign ⟨[], none, some 1⟩ = "Gemini".toList ∧
    ¬ longitude_to_tropical_sign 30 = pointSign ⟨[], none, some 1⟩ := by
  have h1 : longitude_to_tropical_sign 30 = "Taurus".toList := by
    rw [longitude_to_tropical_sign_eq]
    have h : claimSignIndex 30 = 1 := by
      unfold claimSignIndex pymod
      norm_num
    rw [h]
    rfl
  have h2 : pointSign ⟨[], none, some 1⟩ = "Gemini".toList := by decide
  exact ⟨h1, h2, by rw [h1, h2]; decide⟩

/-- C4 amended: the two conversion paths agree exactly on the upper 24
degrees of each sidereal sign: for k < 12 and longitude l in
[30k+6, 30(k+1)), the longitude path equals the rasi path at rasi id k;
on the lower 6 degrees [30k, 30k+6) the longitude path instead yields the
sign at index k itself. -/
theorem sidereal_boundary_amended :
    ∀ k : ℕ, k < 12 → ∀ l : ℚ,
      (30 * k + 6 ≤ l → l < 30 * (k + 1) →
        longitude_to_tropical_sign l = pointSign ⟨[], none, some (k : ℤ)⟩) ∧
      (30 * k ≤ l → l < 30 * k + 6 →
        longitude_to_tropical_sign l = ZODIAC_SIGNS.getD k []) := by
  intro k hk l
  have hrasi : pointSign ⟨[], none, some (k : ℤ)⟩ =
      ZODIAC_SIGNS.getD (((k : ℤ) + 1) % 12).toNat [] := by
    unfold pointSign
    simp only [Option.getD_some, Option.getD_none]
    rw [if_neg (by norm_num), if_pos ?_]
    constructor
    · positivity
    · exact_mod_cast hk
  constructor
  · intro ha hb
    rw [longitude_to_tropical_sign_eq, hrasi]
    by_cases h11 : k = 11
    · subst h11
      have hidx : claimSignIndex l = 0 := by
        unfold claimSignIndex
        have hm : pymod (l + 24) 360 = l + 24 - 360 := by
          apply pymod360_eq_sub <;> push_cast at ha hb ⊢ <;> linarith
        rw [hm]
        apply floor_div30
        · push_cast at ha ⊢
          linarith
        · push_cast at hb ⊢
          linarith
      rw [hidx]
      rfl
    · have hk10 : k ≤ 10 := by omega
      have hidx : claimSignIndex l = (k : ℤ) + 1 := by
        unfold claimSignIndex
        have hm : pymod (l + 24) 360 = l + 24 := by
          apply pymod360_eq_self
          · push_cast at ha ⊢
            have h30 : (0:ℚ) ≤ 30 * (k:ℚ) := by positivity
            linarith
          · push_cast at hb ⊢
            have h30 : (k:ℚ) ≤ 10 := by exact_mod_cast hk10
            linarith
        rw [hm]
        apply floor_div30
        · push_cast at ha ⊢
          linarith
        · push_cast at hb ⊢
          linarith
      rw [hidx]
      congr 1
      have hmod : ((k : ℤ) + 1) % 12 = (k : ℤ) + 1 := by omega
      rw [hmod]
  · intro ha hb
    rw [longitude_to_tropical_sign_eq]
    have hidx : claimSignIndex l = (k : ℤ) := by
      unfold claimSignIndex
      have hm : pymod (l + 24) 360 = l + 24 := by
        apply pymod360_eq_self
        · push_cast at ha ⊢
          have h30 : (0:ℚ) ≤ 30 * (k:ℚ) := by positivity
          linarith
        · push_cast at hb ⊢
          have h30 : (k:ℚ) ≤ 11 := by exact_mod_cast Nat.le_of_lt_succ hk
          linarith
      rw [hm]
      apply floor_div30
      · push_cast
        linarith
      · push_cast
        linarith
    rw [hidx]
    simp

/-- C4 witness: longitude 40.0 lies in the agreement region of sidereal sign
k = 1 and both paths produce the same sign there. -/
theorem sidereal_boundary_amended_witness :
    longitude_to_tropical_sign 40 = pointSign ⟨[], none, some ((1:ℕ) : ℤ)⟩ :=
  (sidereal_boundary_amended 1 (by decide) 40).1 (by norm_num) (by norm_num)

/-- C5: the timezone heuristic is total on (lat, lon, place): it returns the
priority-ordered keyword table's timezone when some keyword occurs in the
lowercased place string -- in particular any place containing "paris" gives
Europe/Paris regardless of coordinates -- and otherwise the eight-range
longitude band, which maps longitude -70 to America/New_York. -/
theorem timezone_heuristic_spec :
    ∀ (lat lon : ℚ) (place : Str),
      (guess_timezone_from_coords lat lon place =
        match firstKeyword (strLower place) with
        | some tz => tz
        | none => longitudeBand lon) ∧
      (strContains (strLower place) "paris".toList = true →
        guess_timezone_from_coords lat lon place = "Europe/Paris".toList) ∧
      (firstKeyword (strLower place) = none →
        guess_timezone_from_coords lat lon place = longitudeBand lon) ∧
      (firstKeyword (strLower place) = none → lon = -70 →
        guess_timezone_from_coords lat lon place = "America/New_York".toList) := by
  intro lat lon place
  refine ⟨guess_timezone_eq lat lon place, ?_, ?_, ?_⟩
  · intro h
    rw [guess_timezone_eq]
    unfold firstKeyword keywordTable
    simp only [firstKeywordAux, List.any_cons, List.any_nil, Bool.or_false, h,
      Bool.true_or, if_true]
  · intro h
    rw [guess_timezone_eq lat lon place, h]
  · intro h hlon
    rw [guess_timezone_eq lat lon place, h, hlon]
    unfold longitudeBand
    rw [if_neg (by norm_num), if_pos (by norm_num)]

/-- C5 witness: "Paris, TX" yields Europe/Paris whatever the coordinates,
and a keyword-free place at longitude -70 falls into the New York band. -/
theorem timezone_heuristic_spec_witness :
    guess_timezone_from_coords 0 5 "Paris, TX".toList = "Europe/Paris".toList ∧
    guess_timezone_from_coords 0 (-70) "Reading, Pennsylvania, USA".toList =
      "America/New_York".toList :=
  ⟨(timezone_heuristic_spec 0 5 "Paris, TX".toList).2.1 (by decide),
   (timezone_heuristic_spec 0 (-70) "Reading, Pennsylvania, USA".toList).2.2.2
     (by decide) rfl⟩

/-- C6 counterexample: "0-0-0" is parseable by the hyphen path, yet
`calculate_life_path` returns 0, which is not in {1..9, 11, 22, 33}, so the
claim's range statement fails for this parseable input. -/
theorem life_path_zero_cex :
    parse_birth_date "0-0-0".toList = some (0, 0, 0) ∧
    calculate_life_path "0-0-0".toList = 0 ∧
    ¬ isLifePathValue 0 := ⟨by decide, by decide, by decide⟩

/-- C6 amended: for every parseable date whose year, month and day are not
all zero -- in particular every calendar-valid date -- the life path lies in
{1..9, 11, 22, 33}; unparseable input yields the fixed fallback 7; and
`calculate_life_path "1989-12-13" = 7`. -/
theorem life_path_spec :
    (∀ s y m d, parse_birth_date s = some (y, m, d) → 0 < y + m + d →
      isLifePathValue (calculate_life_path s)) ∧
    (∀ s, parse_birth_date s = none → calculate_life_path s = 7) ∧
    calculate_life_path "1989-12-13".toList = 7 := by
  refine ⟨?_, ?_, by decide⟩
  · intro s y m d hp hpos
    unfold calculate_life_path
    rw [hp]
    apply reduceMaster_mem
    have h3 : 1 ≤ y ∨ 1 ≤ m ∨ 1 ≤ d := by omega
    rcases h3 with h | h | h
    · have h4 := digitSum_pos y h
      omega
    · have h4 := digitSum_pos m h
      omega
    · have h4 := digitSum_pos d h
      omega
  · intro s hp
    unfold calculate_life_path
    rw [hp]

/-- C6 witness: the long date form "March 5, 1990" parses and reduces into
the master set, and an unparseable string falls back to 7. -/
theorem life_path_spec_witness :
    isLifePathValue (calculate_life_path "March 5, 1990".toList) ∧
    calculate_life_path "not a date".toList = 7 :=
  ⟨life_path_spec.1 "March 5, 1990".toList 1990 3 5 (by decide) (by decide),
   life_path_spec.2.1 "not a date".toList (by decide)⟩

/-- C7: the expression number is the master-number-preserving reduction of
the sum of the claim's Pythagorean letter values over the alphabetic
characters only; a name with no alphabetic characters (the empty string
included) gives 0, which the reduction loop leaves alone. -/
theorem expression_number_spec :
    (∀ name : Str, calculate_expression_number name =
      reduceMaster (((name.filter Char.isAlpha).map pythagoreanValue).sum)) ∧
    (∀ name : Str, (∀ c ∈ name, c.isAlpha = false) →
      calculate_expression_number name = 0) ∧
    calculate_expression_number [] = 0 ∧
    reduceMaster 0 = 0 := by
  refine ⟨?_, ?_, rfl, rfl⟩
  · intro name
    unfold calculate_expression_number
    congr 2
    apply List.map_congr_left
    intro c hc
    exact letterValue_eq_pythagorean c (List.mem_filter.mp hc).2
  · intro name h
    unfold calculate_expression_number
    have hf : name.filter Char.isAlpha = [] := by
      rw [List.filter_eq_nil_iff]
      intro c hc
      simp [h c hc]
    rw [hf]
    rfl

/-- C7 witness: a digits-and-punctuation name reduces to 0 without crashing. -/
theorem expression_number_spec_witness :
    calculate_expression_number "123 !?".toList = 0 :=
  expression_number_spec.2.1 "123 !?".toList (by decide)

lemma char_notMem_of_contains_false (s : Str) (c : Char) (h : s.contains c = false) :
    c ∉ s := by
  simpa using h

lemma strSplit_ne_nil (sep : Char) (s : Str) : strSplit sep s ≠ [] := by
  cases s with
  | nil => simp [strSplit]
  | cons c rest =>
    simp only [strSplit]
    split
    · simp
    · split <;> simp

lemma strSplit_sepFree (sep : Char) (s : Str) (h : s.contains sep = false) :
    strSplit sep s = [s] := by
  induction s with
  | nil => rfl
  | cons c rest ih =>
    have hmem := char_notMem_of_contains_false (c :: rest) sep h
    have hc : c ≠ sep := fun he => hmem (he ▸ List.mem_cons_self c rest)
    have hrest : rest.contains sep = false := by
      simp only [List.mem_cons, not_or] at hmem
      simpa using hmem.2
    simp only [strSplit]
    rw [ih hrest]
    simp only [if_neg hc]

lemma strSplit_append (sep : Char) (a b : Str) (ha : a.contains sep = false) :
    strSplit sep (a ++ sep :: b) = a :: strSplit sep b := by
  induction a with
  | nil =>
    simp only [List.nil_append, strSplit]
    rcases hb : strSplit sep b with _ | ⟨g, gs⟩
    · exact absurd hb (strSplit_ne_nil sep b)
    · simp
  | cons c a2 ih =>
    have hmem := char_notMem_of_contains_false (c :: a2) sep ha
    have hc : c ≠ sep := fun he => hmem (he ▸ List.mem_cons_self c a2)
    have ha2 : a2.contains sep = false := by
      simp only [List.mem_cons, not_or] at hmem
      simpa using hmem.2
    simp only [List.cons_append, strSplit, List.append_eq]
    rw [ih ha2]
    simp only [if_neg hc]

lemma contains_append_mid (a b : Str) (c : Char) :
    (a ++ c :: b).contains c = true := by
  simp

lemma parseNat_no_colon (s : Str) (n : Nat) (h : parseNat s = some n) :
    s.contains ':' = false := by
  unfold parseNat at h
  split at h
  · rename_i hcond
    have hall : ∀ x ∈ s, x.isDigit = true := by
      have h2 := hcond.2
      simpa [List.all_eq_true] using h2
    have hnot : (':' : Char) ∉ s := fun hm => absurd (hall ':' hm) (by decide)
    simpa using hnot
  · exact absurd h (by simp)

/-- C10: for a birth time "H:rest" with numeric hour h, period PM adds 12 to
the hour unless it is already 12, period AM maps hour 12 to 00 and keeps the
other hours, and any other period -- or a birth time without a colon --
leaves the time string untouched. -/
theorem birth_time_conversion_spec :
    (∀ (hs rest : Str) (h : ℕ), parseNat hs = some h → rest.contains ':' = false →
      (convert_birth_time (hs ++ ':' :: rest) "PM".toList =
        some (pad2 (if h ≠ 12 then h + 12 else h) ++ ':' :: rest)) ∧
      (convert_birth_time (hs ++ ':' :: rest) "AM".toList =
        some (pad2 (if h = 12 then 0 else h) ++ ':' :: rest))) ∧
    (∀ bt per, strUpper per ≠ "PM".toList → strUpper per ≠ "AM".toList →
      convert_birth_time bt per = some bt) ∧
    (∀ bt per, bt.contains ':' = false → convert_birth_time bt per = some bt) := by
  refine ⟨?_, ?_, ?_⟩
  · intro hs rest h hp hrest
    have hhs : hs.contains ':' = false := parseNat_no_colon hs h hp
    have hsplit : strSplit ':' (hs ++ ':' :: rest) = hs :: strSplit ':' rest :=
      strSplit_append ':' hs rest hhs
    have hrest2 : strSplit ':' rest = [rest] := strSplit_sepFree ':' rest hrest
    have hcont : (hs ++ ':' :: rest).contains ':' = true := contains_append_mid hs rest ':'
    constructor
    · unfold convert_birth_time
      rw [if_pos ⟨by decide, hcont⟩, hsplit, hrest2]
      simp only [List.getD_cons_zero, List.getD_cons_succ]
      rw [hp]
    · unfold convert_birth_time
      rw [if_neg (fun hcc => absurd hcc.1 (by decide)), if_pos ⟨by decide, hcont⟩,
        hsplit, hrest2]
      simp only [List.getD_cons_zero, List.getD_cons_succ]
      rw [hp]
  · intro bt per h1 h2
    unfold convert_birth_time
    rw [if_neg (fun hcc => h1 hcc.1), if_neg (fun hcc => h2 hcc.1)]
  · intro bt per hbt
    unfold convert_birth_time
    rw [if_neg (fun hcc => char_notMem_of_contains_false bt ':' hbt (by simpa using hcc.2)),
      if_neg (fun hcc => char_notMem_of_contains_false bt ':' hbt (by simpa using hcc.2))]

/-- C10 witness: "05:17" PM becomes "17:17", and a colon-free time passes
through unchanged. -/
theorem birth_time_conversion_spec_witness :
    convert_birth_time ("05".toList ++ ':' :: "17".toList) "PM".toList =
      some (pad2 (if 5 ≠ 12 then 5 + 12 else 5) ++ ':' :: "17".toList) ∧
    convert_birth_time "noon".toList "pm".toList = some "noon".toList :=
  ⟨(birth_time_conversion_spec.1 "05".toList "17".toList 5 (by decide) (by decide)).1,
   birth_time_conversion_spec.2.2 "noon".toList "pm".toList (by decide)⟩

lemma get_chart_from_prokerala_none (bd bt bp : Str) (env : Env)
    (h : (∃ e, env.geocode = Except.error e) ∨ (∃ e, env.token = Except.error e) ∨
         (∃ e, env.planet = Except.error e) ∨ (∃ e, env.kundli = Except.error e)) :
    (get_chart_from_prokerala true bd bt bp env).fst = none := by
  rcases env with ⟨g, t, p, k⟩
  rcases g with ge | gv
  · rfl
  · rcases t with te | tv
    · rfl
    · rcases p with pe | pv
      · rfl
      · rcases k with ke | kv
        · rfl
        · exfalso
          rcases h with ⟨e, he⟩ | ⟨e, he⟩ | ⟨e, he⟩ | ⟨e, he⟩ <;> simp at he

/-- C1 counterexample: with credentials configured and birth time "a:30"
with period PM, the `int()` call of the 12-hour conversion raises outside
any try block, so the chart-selection path of `generate_book` errors instead
of returning a PlacementSet -- the resolver is not exception-free as the
claim states. -/
theorem resolve_chart_raises_cex :
    resolve_chart true
      { birth_date := some "1989-12-13".toList, birth_time := some "a:30".toList,
        birth_time_period := some "PM".toList, birth_place := some "X".toList,
        sun_sign := none, moon_sign := none, rising_sign := none, mercury := none,
        venus := none, mars := none, jupiter := none, saturn := none,
        midheaven := none, north_node := none }
      { geocode := Except.ok (0, 0, []), token := Except.ok [],
        planet := Except.ok ⟨none⟩, kundli := Except.ok none } =
      (Except.error "ValueError".toList, []) := rfl

/-- C1 amended: chart resolution degrades to the caller-supplied-or-default
tier on every failure apart from a malformed hour in the 12-hour conversion:
without credentials it returns the fallback chart with no network call
attempted; with credentials and a successful time conversion it never
errors, and returns the fallback chart whenever the ephemeris fetch
produced nothing -- in particular when geocoding, token acquisition, the
planet-position call or the kundli decoding fails. -/
theorem resolve_chart_degrades :
    ∀ (u : UserData) (env : Env),
      resolve_chart false u env = (Except.ok (fallback_chart u), []) ∧
      (∀ bt, convert_birth_time (u.birth_time.getD "12:00".toList)
          (u.birth_time_period.getD []) = some bt →
        (∃ c, (resolve_chart true u env).fst = Except.ok c) ∧
        ((get_chart_from_prokerala true (u.birth_date.getD []) bt
            (u.birth_place.getD []) env).fst = none →
          (resolve_chart true u env).fst = Except.ok (fallback_chart u)) ∧
        (((∃ e, env.geocode = Except.error e) ∨ (∃ e, env.token = Except.error e) ∨
          (∃ e, env.planet = Except.error e) ∨ (∃ e, env.kundli = Except.error e)) →
          (resolve_chart true u env).fst = Except.ok (fallback_chart u))) := by
  intro u env
  constructor
  · rfl
  · intro bt hbt
    have hres : resolve_chart true u env =
        (match get_chart_from_prokerala true (u.birth_date.getD []) bt
            (u.birth_place.getD []) env with
         | (some chart, calls) => (Except.ok chart, calls)
         | (none, calls) => (Except.ok (fallback_chart u), calls)) := by
      unfold resolve_chart
      rw [if_pos rfl, hbt]
    rcases hgc : get_chart_from_prokerala true (u.birth_date.getD []) bt
        (u.birth_place.getD []) env with ⟨co, calls⟩
    rcases co with _ | chart
    · have hfst : (resolve_chart true u env).fst = Except.ok (fallback_chart u) := by
        rw [hres, hgc]
      exact ⟨⟨fallback_chart u, hfst⟩, fun _ => hfst, fun _ => hfst⟩
    · have hfst : (resolve_chart true u env).fst = Except.ok chart := by
        rw [hres, hgc]
      refine ⟨⟨chart, hfst⟩, ?_, ?_⟩
      · intro hnone
        simp at hnone
      · intro herr
        have hnone := get_chart_from_prokerala_none (u.birth_date.getD []) bt
          (u.birth_place.getD []) env herr
        rw [hgc] at hnone
        simp at hnone

/-- C1 witness: with a failing token call and an otherwise empty
questionnaire, resolution with credentials returns the all-default
fallback chart. -/
theorem resolve_chart_degrades_witness :
    (resolve_chart true
      { birth_date := none, birth_time := none, birth_time_period := none,
        birth_place := none, sun_sign := none, moon_sign := none, rising_sign := none,
        mercury := none, venus := none, mars := none, jupiter := none, saturn := none,
        midheaven := none, north_node := none }
      { geocode := Except.ok (0, 0, []), token := Except.error "boom".toList,
        planet := Except.ok ⟨none⟩, kundli := Except.ok none }).fst =
      Except.ok (fallback_chart
        { birth_date := none, birth_time := none, birth_time_period := none,
          birth_place := none, sun_sign := none, moon_sign := none, rising_sign := none,
          mercury := none, venus := none, mars := none, jupiter := none, saturn := none,
          midheaven := none, north_node := none }) :=
  ((resolve_chart_degrades
      { birth_date := none, birth_time := none, birth_time_period := none,
        birth_place := none, sun_sign := none, moon_sign := none, rising_sign := none,
        mercury := none, venus := none, mars := none, jupiter := none, saturn := none,
        midheaven := none, north_node := none }
      { geocode := Except.ok (0, 0, []), token := Except.error "boom".toList,
        planet := Except.ok ⟨none⟩, kundli := Except.ok none }).2 "12:00".toList
    (by decide)).2.2 (Or.inr (Or.inl ⟨"boom".toList, rfl⟩))

lemma pyOr_aries_ne_nil (o : Option Str) : pyOr o "Aries".toList ≠ [] := by
  rcases o with _ | s
  · show "Aries".toList ≠ []
    decide
  · show (if s = [] then "Aries".toList else s) ≠ []
    split
    · decide
    · rename_i h
      exact h

lemma pyOr_aries_mem (o : Option Str)
    (h : ∀ v, o = some v → v = [] ∨ v ∈ ZODIAC_SIGNS) :
    pyOr o "Aries".toList ∈ ZODIAC_SIGNS := by
  rcases o with _ | s
  · show "Aries".toList ∈ ZODIAC_SIGNS
    decide
  · show (if s = [] then "Aries".toList else s) ∈ ZODIAC_SIGNS
    split
    · decide
    · rename_i hs
      rcases h s rfl with h1 | h1
      · exact absurd h1 hs
      · exact h1

/-- C8 counterexample: the fallback tier copies whatever non-empty string
the caller supplied, so a chart it builds can bind sun_sign to a string that
is none of the twelve zodiac-sign names. -/
theorem placementset_membership_cex :
    (fallback_chart
      { birth_date := none, birth_time := none, birth_time_period := none,
        birth_place := none, sun_sign := some "NotASign".toList, moon_sign := none,
        rising_sign := none, mercury := none, venus := none, mars := none,
        jupiter := none, saturn := none, midheaven := none, north_node := none }).sun_sign =
      "NotASign".toList ∧
    "NotASign".toList ∉ ZODIAC_SIGNS := ⟨rfl, by decide⟩

/-- C8 amended: every chart `parse_chart_data` builds is total with all ten
values among the twelve sign names; the fallback tier is total and never
leaves a key empty -- absent or empty caller values become "Aries" -- and
its values are all among the twelve precisely when every caller-supplied
value is empty or a sign name. -/
theorem placementset_total_amended :
    (∀ (pd : PlanetData) (kd : Option KundliData),
      ∀ s ∈ chartFields (parse_chart_data pd kd), s ∈ ZODIAC_SIGNS) ∧
    (∀ u : UserData,
      (∀ s ∈ chartFields (fallback_chart u), s ≠ []) ∧
      ((∀ o ∈ [u.sun_sign, u.moon_sign, u.rising_sign, u.mercury, u.venus, u.mars,
          u.jupiter, u.saturn, u.midheaven, u.north_node],
          ∀ v, o = some v → v = [] ∨ v ∈ ZODIAC_SIGNS) →
        ∀ s ∈ chartFields (fallback_chart u), s ∈ ZODIAC_SIGNS)) := by
  refine ⟨parse_chart_data_mem, ?_⟩
  intro u
  constructor
  · intro s hs
    simp only [chartFields, fallback_chart, List.mem_cons, List.not_mem_nil, or_false] at hs
    rcases hs with rfl | rfl | rfl | rfl | rfl | rfl | rfl | rfl | rfl | rfl <;>
      apply pyOr_aries_ne_nil
  · intro h s hs
    simp only [chartFields, fallback_chart, List.mem_cons, List.not_mem_nil, or_false] at hs
    rcases hs with rfl | rfl | rfl | rfl | rfl | rfl | rfl | rfl | rfl | rfl <;>
      (apply pyOr_aries_mem; apply h; simp)

/-- C8 witness: with no caller-supplied signs the fallback chart's sun sign
is one of the twelve names. -/
theorem placementset_total_amended_witness :
    (fallback_chart
      { birth_date := none, birth_time := none, birth_time_period := none,
        birth_place := none, sun_sign := none, moon_sign := none, rising_sign := none,
        mercury := none, venus := none, mars := none, jupiter := none, saturn := none,
        midheaven := none, north_node := none }).sun_sign ∈ ZODIAC_SIGNS :=
  (placementset_total_amended.2
      { birth_date := none, birth_time := none, birth_time_period := none,
        birth_place := none, sun_sign := none, moon_sign := none, rising_sign := none,
        mercury := none, venus := none, mars := none, jupiter := none, saturn := none,
        midheaven := none, north_node := none }).2 (by simp) _ (by simp [chartFields])

/-- C9 counterexample: on a valid request with a failed storage upload,
`/generate-simple` answers HTTP 200 with success true and a null
download_url instead of the claimed {success:false, error} with status
500. -/
theorem upload_failure_status_cex :
    generate_simple
      (some { name := some "Ana".toList, first_name := none, firstName := none,
              last_name := none, birth_date := some "1989-12-13".toList,
              birthDate := none, dob := none,
              birth_place := some "Reading".toList, birthPlace := none,
              location := none })
      (Except.ok ()) none "abc123".toList =
      (200, { emptyBody with
                success := some true
                download_url := some none
                filename := some "orastria_Ana_abc123.pdf".toList }) := rfl

/-- C9 amended: both endpoints answer 400 on a missing JSON body; `/generate`
surfaces a generation exception and an upload failure as 500 with
{success:false, error}, and a successful upload as 200 with
{success, download_url, filename}; `/generate-simple` surfaces a generation
exception as 500 with {success:false, error}, but on successful generation
it always answers 200 with success true, passing the upload result through
unchecked (null download_url when the upload failed). -/
theorem http_endpoint_spec :
    ∀ (gq : GenReq) (sq : SimpleReq) (gen : Except Str Unit) (upload : Option Str)
      (bid name bd bp : Str),
      (generate_book_endpoint none gen upload bid).fst = 400 ∧
      (generate_simple none gen upload bid).fst = 400 ∧
      (name = pyOr gq.user_name
          (strTrim ((gq.first_name.getD []) ++ ' ' :: (gq.last_name.getD []))) →
        name ≠ [] → pyOr gq.chart_sun_sign [] ≠ [] →
        ((∀ e, gen = Except.error e →
            generate_book_endpoint (some gq) gen upload bid =
              (500, { emptyBody with success := some false, error := some e })) ∧
         (gen = Except.ok () →
            generate_book_endpoint (some gq) gen none bid =
              (500, { emptyBody with
                        success := some false
                        error := some "Failed to upload to storage".toList })) ∧
         (∀ url, gen = Except.ok () →
            generate_book_endpoint (some gq) gen (some url) bid =
              (200, { emptyBody with
                        success := some true
                        download_url := some (some url)
                        filename := some (mkFilename name bid)
                        message := some ("Book generated for ".toList ++ name) })))) ∧
      (bd = pyFirst [sq.birth_date, sq.birthDate, sq.dob] [] →
       bp = pyFirst [sq.birth_place, sq.birthPlace, sq.location] [] →
       bd ≠ [] → bp ≠ [] →
        ((∀ e, gen = Except.error e →
            generate_simple (some sq) gen upload bid =
              (500, { emptyBody with success := some false, error := some e })) ∧
         (gen = Except.ok () →
            (generate_simple (some sq) gen upload bid).fst = 200 ∧
            (generate_simple (some sq) gen upload bid).snd.success = some true ∧
            (generate_simple (some sq) gen upload bid).snd.download_url = some upload))) := by
  intro gq sq gen upload bid name bd bp
  refine ⟨rfl, rfl, ?_, ?_⟩
  · intro hname hne hsun
    subst hname
    refine ⟨?_, ?_, ?_⟩
    · intro e hgen
      subst hgen
      simp only [generate_book_endpoint]
      rw [if_neg hne, if_neg hsun]
    · intro hgen
      subst hgen
      simp only [generate_book_endpoint]
      rw [if_neg hne, if_neg hsun]
    · intro url hgen
      subst hgen
      simp only [generate_book_endpoint]
      rw [if_neg hne, if_neg hsun]
  · intro hbd hbp hbdne hbpne
    subst hbd
    subst hbp
    have hval : ¬ (pyFirst [sq.first_name, sq.firstName, sq.name] [] = [] ∧
        (if pyOr sq.name (strTrim ((sq.first_name.getD []) ++ ' ' :: (sq.last_name.getD []))) = [] ∨
            strTrim (pyOr sq.name (strTrim ((sq.first_name.getD []) ++ ' ' :: (sq.last_name.getD [])))) = [] then
          (if pyFirst [sq.first_name, sq.firstName, sq.name] [] = [] then "Friend".toList
           else pyFirst [sq.first_name, sq.firstName, sq.name] [])
         else pyOr sq.name (strTrim ((sq.first_name.getD []) ++ ' ' :: (sq.last_name.getD [])))) = []) := by
      rintro ⟨hfn, hnm⟩
      rw [if_pos hfn] at hnm
      by_cases hcond : pyOr sq.name (strTrim ((sq.first_name.getD []) ++ ' ' :: (sq.last_name.getD []))) = [] ∨
          strTrim (pyOr sq.name (strTrim ((sq.first_name.getD []) ++ ' ' :: (sq.last_name.getD [])))) = []
      · rw [if_pos hcond] at hnm
        exact absurd hnm (by decide)
      · rw [if_neg hcond] at hnm
        simp only [not_or] at hcond
        exact hcond.1 hnm
    refine ⟨?_, ?_⟩
    · intro e hgen
      subst hgen
      simp only [generate_simple]
      rw [if_neg hval, if_neg hbdne, if_neg hbpne]
    · intro hgen
      subst hgen
      simp only [generate_simple]
      rw [if_neg hval, if_neg hbdne, if_neg hbpne]
      exact ⟨rfl, rfl, rfl⟩

/-- C9 witness: a valid `/generate` request whose upload fails is answered
with status 500 and {success:false, error}. -/
theorem http_endpoint_spec_witness :
    generate_book_endpoint
      (some { user_name := some "Ana".toList, first_name := none, last_name := none,
              chart_sun_sign := some "Leo".toList })
      (Except.ok ()) none "b1".toList =
      (500, { emptyBody with
                success := some false
                error := some "Failed to upload to storage".toList }) :=
  ((http_endpoint_spec
      { user_name := some "Ana".toList, first_name := none, last_name := none,
        chart_sun_sign := some "Leo".toList }
      { name := none, first_name := none, firstName := none, last_name := none,
        birth_date := none, birthDate := none, dob := none, birth_place := none,
        birthPlace := none, location := none }
      (Except.ok ()) none "b1".toList "Ana".toList [] []).2.2.1
    (by decide) (by decide) (by decide)).2.1 rfl

end Orastria
